import Mathlib

/-!
Verification of the ACADO symbolic-operator core (files
`src/symbolic_operator/powerint.cpp`, `src/symbolic_operator/asin.cpp`,
`include/acado/symbolic_operator/powerint.hpp`).

The development shallowly embeds the `Power_Int` node (integer-exponent power)
and the `Asin` node of the expression-tree engine.  C++ doubles are modelled as
exact rationals (ℚ), C enumerations as Lean inductives keeping the source
names, the growable result buffers as lists together with an explicit
`bufferSize` field, and fallible buffer accesses as `Option` results.  Code of
the repository that is not part of the given sources (the `Projection`
variable leaf, `DoubleConstant`, the factory helpers `myProd` / `myPowerInt`,
`convert2TreeProjection`, and the `UnaryOperator` base-class behaviour used by
`Asin`) is modelled from the specification; every such definition carries a
doc comment starting with "Modelled from the spec:".
-/

/-- The result-code type `returnValue` (only the two codes relevant to the
evaluation contract of `powerint.hpp` are modelled). -/
inductive ReturnValue where
  | SUCCESSFUL_RETURN : ReturnValue
  | RET_NAN : ReturnValue
deriving DecidableEq, Repr

export ReturnValue (SUCCESSFUL_RETURN RET_NAN)

/-- The `NeutralElement` classification returned by `isOneOrZero`. -/
inductive NeutralElement where
  | NE_ZERO : NeutralElement
  | NE_ONE : NeutralElement
  | NE_NEITHER_ONE_NOR_ZERO : NeutralElement
deriving DecidableEq, Repr

export NeutralElement (NE_ZERO NE_ONE NE_NEITHER_ONE_NOR_ZERO)

/-- The `BooleanType` enumeration of ACADO. -/
inductive BooleanType where
  | BT_TRUE : BooleanType
  | BT_FALSE : BooleanType
deriving DecidableEq, Repr

export BooleanType (BT_TRUE BT_FALSE)

/-- The `MonotonicityType` enumeration. -/
inductive MonotonicityType where
  | MT_CONSTANT : MonotonicityType
  | MT_NONDECREASING : MonotonicityType
  | MT_NONINCREASING : MonotonicityType
  | MT_NONMONOTONIC : MonotonicityType
  | MT_UNKNOWN : MonotonicityType
deriving DecidableEq, Repr

export MonotonicityType (MT_CONSTANT MT_NONDECREASING MT_NONINCREASING
  MT_NONMONOTONIC MT_UNKNOWN)

/-- The `CurvatureType` enumeration. -/
inductive CurvatureType where
  | CT_CONSTANT : CurvatureType
  | CT_AFFINE : CurvatureType
  | CT_CONVEX : CurvatureType
  | CT_CONCAVE : CurvatureType
  | CT_NEITHER_CONVEX_NOR_CONCAVE : CurvatureType
  | CT_UNKNOWN : CurvatureType
deriving DecidableEq, Repr

export CurvatureType (CT_CONSTANT CT_AFFINE CT_CONVEX CT_CONCAVE
  CT_NEITHER_CONVEX_NOR_CONCAVE CT_UNKNOWN)

/-- Symbolic expression trees over the operator kinds appearing in the given
sources: variable leaves (`Projection`, with a variable type and a global
variable index), `DoubleConstant` leaves (value together with their
`NeutralElement` tag as passed to the constructor), `Power_Int`, `Asin`,
`Product`, `Addition` and the real-exponent `Power` (the last three occur as
the building blocks of the derivative expressions of `Asin` and `Power_Int`).
-/
inductive Expr where
  | var : Nat → Nat → Expr
  | const : ℚ → NeutralElement → Expr
  | powerInt : Expr → Int → Expr
  | asin : Expr → Expr
  | prod : Expr → Expr → Expr
  | add : Expr → Expr → Expr
  | power : Expr → Expr → Expr
deriving DecidableEq, Repr

namespace Expr

/-- Numeric evaluation of an expression at the global variable-value vector
`x`.  A variable leaf reads `x` at its global index (modelled from the spec:
"a dense array indexed by global variable slot").  `Power_Int` evaluates as
`pow(argValue, n)` (source `powerint.cpp` line 123), modelled by the rational
`zpow`.  The transcendental operations `asin` and the real power have no
exact rational counterpart, so the evaluator is parameterised by
interpretations `asinF` and `rpowF` of them, mirroring the function pointers
`fcn` held by `UnaryOperator` nodes. -/
def eval (asinF : ℚ → ℚ) (rpowF : ℚ → ℚ → ℚ) (x : Nat → ℚ) : Expr → ℚ
  | var _ gi => x gi
  | const v _ => v
  | powerInt a n => (eval asinF rpowF x a) ^ n
  | asin a => asinF (eval asinF rpowF x a)
  | prod a b => (eval asinF rpowF x a) * (eval asinF rpowF x b)
  | add a b => (eval asinF rpowF x a) + (eval asinF rpowF x b)
  | power a b => rpowF (eval asinF rpowF x a) (eval asinF rpowF x b)

/-- `substitute(index, sub)`.  `Power_Int::substitute` returns
`new Power_Int( argument->substitute(index,sub), exponent )` (source lines
216-220) and `Asin::substitute` returns `new Asin( argument->substitute(...))`
(asin.cpp lines 105-109).  The remaining node kinds are modelled from the
spec: substitution "must recurse structurally"; a variable leaf with the
substituted global index is replaced by `sub`, constants are unchanged. -/
def substitute (index : Nat) (sub : Expr) : Expr → Expr
  | var vt gi => if gi = index then sub else var vt gi
  | const v t => const v t
  | powerInt a n => powerInt (substitute index sub a) n
  | asin a => asin (substitute index sub a)
  | prod a b => prod (substitute index sub a) (substitute index sub b)
  | add a b => add (substitute index sub a) (substitute index sub b)
  | power a b => power (substitute index sub a) (substitute index sub b)

/-- `isOneOrZero`.  `Power_Int::isOneOrZero` returns
`NE_NEITHER_ONE_NOR_ZERO` unconditionally (source line 223).  Constants
report the `NeutralElement` tag they were constructed with, and every other
node kind defaults to "neither" (modelled from the spec: "constants report
their literal classification; general expressions default to neither"). -/
def isOneOrZero : Expr → NeutralElement
  | var _ _ => NE_NEITHER_ONE_NOR_ZERO
  | const _ t => t
  | powerInt _ _ => NE_NEITHER_ONE_NOR_ZERO
  | asin _ => NE_NEITHER_ONE_NOR_ZERO
  | prod _ _ => NE_NEITHER_ONE_NOR_ZERO
  | add _ _ => NE_NEITHER_ONE_NOR_ZERO
  | power _ _ => NE_NEITHER_ONE_NOR_ZERO

end Expr

/-- Modelled from the spec: the factory helper `myProd` (its implementation is
not among the given sources).  Per spec section 3, factory helpers "apply
neutral-element simplification before allocating a new node", folding away
multiply-by-zero and multiply-by-one using the operands' `isOneOrZero`
classification; otherwise a `Product` node is allocated. -/
def myProd (a b : Expr) : Expr :=
  match a.isOneOrZero, b.isOneOrZero with
  | NE_ZERO, _ => Expr.const 0 NE_ZERO
  | _, NE_ZERO => Expr.const 0 NE_ZERO
  | NE_ONE, _ => b
  | _, NE_ONE => a
  | _, _ => Expr.prod a b

/-- Modelled from the spec: the factory helper `myPowerInt` (not among the
given sources).  Its neutral-element simplification rules are not recorded in
the spec, so it is modelled as plain construction of a `Power_Int` node. -/
def myPowerInt (a : Expr) (n : Int) : Expr := Expr.powerInt a n

/-- Modelled from the spec: `convert2TreeProjection` (not among the given
sources) wraps an expression for intermediate-state bookkeeping; it does not
change the algebraic content, so it is modelled as the identity. -/
def convert2TreeProjection (a : Expr) : Expr := a

/-- Pointwise update of the variable-value vector at index `i`. -/
def updateVec (x : Nat → ℚ) (i : Nat) (c : ℚ) : Nat → ℚ :=
  fun j => if j = i then c else x j

/-- The per-node numeric buffer state of a `Power_Int` node: the two growable
arrays `argument_result` and `dargument_result` (C arrays modelled as lists)
together with the `bufferSize` field (`powerint.hpp` lines 458-465). -/
structure PIBuffers where
  bufferSize : Nat
  argument_result : List ℚ
  dargument_result : List ℚ
deriving DecidableEq, Repr

/-- Well-formedness of the buffer state: both arrays hold exactly
`bufferSize` doubles (established by the constructor, which calloc-ates both
arrays with size `bufferSize = 1`, and preserved by every realloc). -/
def PIBuffers.wf (s : PIBuffers) : Prop :=
  s.argument_result.length = s.bufferSize
  ∧ s.dargument_result.length = s.bufferSize
  ∧ 1 ≤ s.bufferSize

instance (s : PIBuffers) : Decidable s.wf := by
  unfold PIBuffers.wf; infer_instance

/-- The buffer-growth step shared by `Power_Int::evaluate` and the
five-argument `Power_Int::AD_forward` (source lines 116-120 and 358-362):
when `number >= bufferSize` the size is increased by `number` and both arrays
are realloc-ated to the new size (realloc preserves the old entries; the
newly added region is uninitialised, modelled here as zeros). -/
def growBuffers (s : PIBuffers) (number : Nat) : PIBuffers :=
  if s.bufferSize ≤ number then
    let newSize := s.bufferSize + number
    { bufferSize := newSize,
      argument_result :=
        s.argument_result ++ List.replicate (newSize - s.argument_result.length) 0,
      dargument_result :=
        s.dargument_result ++ List.replicate (newSize - s.dargument_result.length) 0 }
  else s

namespace Power_Int

/-- `Power_Int::evaluate(number, x, result)` (source lines 114-126).  The
buffers are grown if needed, the argument is evaluated into
`argument_result[number]` (the child writes the value `childVal` there; its
return code `childCode` is discarded by the source, which does not inspect
it), the result is `pow(argument_result[number], exponent)`, and the function
returns `SUCCESSFUL_RETURN` unconditionally.  An out-of-bounds buffer store
would be undefined behaviour and is modelled as `none`. -/
def evaluate (expo : Int) (childVal : ℚ) (_childCode : ReturnValue)
    (s : PIBuffers) (number : Nat) : Option (PIBuffers × ℚ × ReturnValue) :=
  let s1 := growBuffers s number
  if number < s1.argument_result.length then
    let ar := s1.argument_result.set number childVal
    some ({ s1 with argument_result := ar },
          (ar.getD number 0) ^ expo, SUCCESSFUL_RETURN)
  else none

/-- The two-argument numeric `Power_Int::AD_forward(number, seed, df)`
(source lines 374-382): the argument's forward sweep writes its directional
derivative `childDf` into `dargument_result[number]`, then
`df = exponent * pow(argument_result[number], exponent-1) *
dargument_result[number]`.  No buffer growth is performed; an out-of-bounds
access is modelled as `none`. -/
def AD_forward_num (expo : Int) (childDf : ℚ) (s : PIBuffers) (number : Nat) :
    Option (PIBuffers × ℚ) :=
  if number < s.dargument_result.length then
    let dr := s.dargument_result.set number childDf
    if number < s.argument_result.length then
      some ({ s with dargument_result := dr },
            (expo : ℚ) * (s.argument_result.getD number 0) ^ (expo - 1)
              * (dr.getD number 0))
    else none
  else none

/-- Numeric `Power_Int::AD_backward(number, seed, df)` (source lines
385-388): reads `argument_result[number]`, pushes
`exponent * pow(argument_result[number], exponent-1) * seed` into the
argument's backward sweep, and returns the argument's result code
(`childCode`).  The second component of the result is the seed pushed into
the argument. -/
def AD_backward_num (expo : Int) (childCode : ReturnValue) (s : PIBuffers)
    (number : Nat) (seed : ℚ) : Option (PIBuffers × ℚ × ReturnValue) :=
  if number < s.argument_result.length then
    some (s, (expo : ℚ) * (s.argument_result.getD number 0) ^ (expo - 1) * seed,
          childCode)
  else none

/-- Numeric `Power_Int::AD_forward2(number, seed, dseed, df, ddf)` (source
lines 391-406): the argument's second-order sweep produces the local values
`childD` (`dargument_result2`) and `childDD` (`ddargument_result`); then with
`nn = exponent * pow(argument_result[number], exponent-1)`:
`df = nn * childD` and `ddf = nn * childDD + exponent*(exponent-1) *
dargument_result[number] * childD * pow(argument_result[number],
exponent-2)`.  Both buffers are read, none is written. -/
def AD_forward2_num (expo : Int) (childD childDD : ℚ) (s : PIBuffers)
    (number : Nat) : Option (PIBuffers × ℚ × ℚ) :=
  if number < s.argument_result.length then
    if number < s.dargument_result.length then
      let nn := (expo : ℚ) * (s.argument_result.getD number 0) ^ (expo - 1)
      some (s, nn * childD,
            nn * childDD
              + (expo : ℚ) * ((expo : ℚ) - 1) * (s.dargument_result.getD number 0)
                * childD * (s.argument_result.getD number 0) ^ (expo - 2))
    else none
  else none

/-- Numeric `Power_Int::AD_backward2(number, seed1, seed2, df, ddf)` (source
lines 409-423): with `nn = exponent * pow(argument_result[number],
exponent-1)` the seeds pushed into the argument's sweep are `seed1 * nn` and
`seed2 * nn + seed1 * exponent*(exponent-1) * pow(argument_result[number],
exponent-2) * dargument_result[number]`; the argument's result code is
returned. -/
def AD_backward2_num (expo : Int) (childCode : ReturnValue) (s : PIBuffers)
    (number : Nat) (seed1 seed2 : ℚ) :
    Option (PIBuffers × ℚ × ℚ × ReturnValue) :=
  if number < s.argument_result.length then
    if number < s.dargument_result.length then
      let nn := (expo : ℚ) * (s.argument_result.getD number 0) ^ (expo - 1)
      some (s, seed1 * nn,
            seed2 * nn
              + seed1 * (expo : ℚ) * ((expo : ℚ) - 1)
                * (s.argument_result.getD number 0) ^ (expo - 2)
                * (s.dargument_result.getD number 0),
            childCode)
    else none
  else none

end Power_Int

/-- Modelled from the spec: the ACADO precision constant `EPS` used by the
parity test of `getMonotonicity` / `getCurvature` (defined in
`acado_utils.hpp`, which is not among the given sources); its value is the
customary 1e-12.  The parity theorem below only needs `0 < EPS < 1/20`. -/
def EPS : ℚ := 1 / 1000000000000

/-- The even-exponent test of `Power_Int::getMonotonicity` and
`Power_Int::getCurvature` (source lines 298 and 323):
`fabs( ceil( exponent/2.0 - EPS ) - exponent/2.0 ) < 10.0*EPS`, the
floating-point arithmetic modelled as exact rational arithmetic. -/
def evenExponentTest (n : Int) : Bool :=
  decide (|((⌈(n : ℚ) / 2 - EPS⌉ : ℤ) : ℚ) - (n : ℚ) / 2| < 10 * EPS)

/-- The cached classification state of a `Power_Int` node: the `curvature`
and `monotonicity` fields (`powerint.hpp` lines 467-468), both `UNKNOWN`
after construction unless explicitly overridden. -/
structure PIClassification where
  curvature : CurvatureType
  monotonicity : MonotonicityType
deriving DecidableEq, Repr

namespace Power_Int

/-- `Power_Int::getMonotonicity` (source lines 289-311).  The call takes the
argument's monotonicity `argMono` as a parameter (the recursive call
`argument->getMonotonicity()` of line 293) and does not modify the node
state; the pair returned is (result, unchanged state). -/
def getMonotonicity (s : PIClassification) (argMono : MonotonicityType)
    (expo : Int) : MonotonicityType × PIClassification :=
  ((if s.monotonicity ≠ MT_UNKNOWN then s.monotonicity
    else if argMono = MT_CONSTANT then MT_CONSTANT
    else if evenExponentTest expo then
      (if expo = 0 then MT_CONSTANT else MT_NONMONOTONIC)
    else
      (if expo > 0 then argMono else MT_NONMONOTONIC)), s)

/-- `Power_Int::getCurvature` (source lines 314-338), with the argument's
curvature `argCurv` passed as a parameter (line 318). -/
def getCurvature (s : PIClassification) (argCurv : CurvatureType)
    (expo : Int) : CurvatureType × PIClassification :=
  ((if s.curvature ≠ CT_UNKNOWN then s.curvature
    else if argCurv = CT_CONSTANT then CT_CONSTANT
    else if evenExponentTest expo then
      (if expo < 0 then CT_NEITHER_CONVEX_NOR_CONCAVE
       else if expo = 0 then CT_CONSTANT
       else if argCurv = CT_AFFINE then CT_CONVEX
       else CT_NEITHER_CONVEX_NOR_CONCAVE)
    else
      (if expo = 1 then argCurv else CT_NEITHER_CONVEX_NOR_CONCAVE)), s)

/-- `Power_Int::setMonotonicity` (source lines 341-345): stores the given
value and returns `SUCCESSFUL_RETURN`. -/
def setMonotonicity (s : PIClassification) (m : MonotonicityType) :
    ReturnValue × PIClassification :=
  (SUCCESSFUL_RETURN, { s with monotonicity := m })

/-- `Power_Int::setCurvature` (source lines 348-352). -/
def setCurvature (s : PIClassification) (c : CurvatureType) :
    ReturnValue × PIClassification :=
  (SUCCESSFUL_RETURN, { s with curvature := c })

end Power_Int

/-- The monotonicity rule in the words of the spec (refinement companion
definition, written from the spec text, to be compared with the source-level
`Power_Int.getMonotonicity`): argument constant → constant; `n` even →
non-monotonic unless `n = 0` (constant); `n` odd positive → the argument's
monotonicity; `n` odd negative → non-monotonic. -/
def specMonotonicity (argMono : MonotonicityType) (n : Int) : MonotonicityType :=
  if argMono = MT_CONSTANT then MT_CONSTANT
  else if n % 2 = 0 then
    (if n = 0 then MT_CONSTANT else MT_NONMONOTONIC)
  else if n > 0 then argMono
  else MT_NONMONOTONIC

/-- The curvature rule in the words of the spec (refinement companion
definition): argument constant → constant; `n` even: `n < 0` → neither,
`n = 0` → constant, argument affine → convex, else neither; `n` odd:
`n = 1` → the argument's curvature, else neither. -/
def specCurvature (argCurv : CurvatureType) (n : Int) : CurvatureType :=
  if argCurv = CT_CONSTANT then CT_CONSTANT
  else if n % 2 = 0 then
    (if n < 0 then CT_NEITHER_CONVEX_NOR_CONCAVE
     else if n = 0 then CT_CONSTANT
     else if argCurv = CT_AFFINE then CT_CONVEX
     else CT_NEITHER_CONVEX_NOR_CONCAVE)
  else if n = 1 then argCurv
  else CT_NEITHER_CONVEX_NOR_CONCAVE

/-- Size (node count) of an expression, used to count the nodes allocated
while building the cached derivative expressions. -/
def Expr.size : Expr → Nat
  | .var _ _ => 1
  | .const _ _ => 1
  | .powerInt a _ => a.size + 1
  | .asin a => a.size + 1
  | .prod a b => a.size + b.size + 1
  | .add a b => a.size + b.size + 1
  | .power a b => a.size + b.size + 1

/-- Operator nodes carrying their lazily initialised derivative caches
`derivative` and `derivative2` (`powerint.hpp` lines 446-447; null pointers
modelled as `none`), for the node kinds with such caches in the given
sources (`Power_Int` and `Asin`); variables and constants are the leaf
kinds. -/
inductive CNode where
  | var : Nat → Nat → CNode
  | const : ℚ → NeutralElement → CNode
  | powerInt : CNode → Int → Option Expr → Option Expr → CNode
  | asin : CNode → Option Expr → Option Expr → CNode
deriving DecidableEq, Repr

/-- The cache-free expression underlying a cached node (the `argument`
subexpression referenced inside the built derivative formulas). -/
def strip : CNode → Expr
  | .var vt gi => Expr.var vt gi
  | .const v t => Expr.const v t
  | .powerInt a e _ _ => Expr.powerInt (strip a) e
  | .asin a _ _ => Expr.asin (strip a)

/-- `initDerivative`.  `Power_Int::initDerivative` (source lines 194-212)
returns immediately when `derivative != 0`; otherwise it builds
`derivative = convert2TreeProjection(myProd(expTmp, myPowerInt(argument,
exponent-1)))` and `derivative2 = convert2TreeProjection(myProd(myProd(
expTmp, expTmp2), myPowerInt(argument, exponent-2)))` with the constants
`expTmp = exponent` and `expTmp2 = exponent-1` (both tagged
`NE_NEITHER_ONE_NOR_ZERO`), then recursively initialises the argument.
`Asin::initDerivative` (asin.cpp lines 112-148) returns immediately when
both `derivative != 0` and `derivative2 != 0`; otherwise it builds
`derivative = (1 + (-1)*argument^2) ^ (-0.5)` and
`derivative2 = ((1 + (-1)*argument^2) ^ (-1.5)) * argument` from plain
constructors and recursively initialises the argument.  The second
component counts the expression nodes allocated by the call. -/
def initDeriv : CNode → CNode × Nat
  | .var vt gi => (.var vt gi, 0)
  | .const v t => (.const v t, 0)
  | .powerInt arg e d d2 =>
      if d.isSome then (.powerInt arg e d d2, 0)
      else
        let powerTmp := myPowerInt (strip arg) (e - 1)
        let expTmp := Expr.const (e : ℚ) NE_NEITHER_ONE_NOR_ZERO
        let deriv := convert2TreeProjection (myProd expTmp powerTmp)
        let powerTmp2 := myPowerInt (strip arg) (e - 2)
        let expTmp2 := Expr.const ((e : ℚ) - 1) NE_NEITHER_ONE_NOR_ZERO
        let prodTmp := myProd expTmp expTmp2
        let deriv2 := convert2TreeProjection (myProd prodTmp powerTmp2)
        let argInit := initDeriv arg
        (.powerInt argInit.1 e (some deriv) (some deriv2),
          deriv.size + deriv2.size + argInit.2)
  | .asin arg d d2 =>
      if d.isSome && d2.isSome then (.asin arg d d2, 0)
      else
        let deriv := convert2TreeProjection
          (Expr.power
            (Expr.add (Expr.const 1 NE_ONE)
              (Expr.prod (Expr.const (-1) NE_NEITHER_ONE_NOR_ZERO)
                (Expr.powerInt (strip arg) 2)))
            (Expr.const (-(1 / 2)) NE_NEITHER_ONE_NOR_ZERO))
        let deriv2 := convert2TreeProjection
          (Expr.prod
            (Expr.power
              (Expr.add (Expr.const 1 NE_ONE)
                (Expr.prod (Expr.const (-1) NE_NEITHER_ONE_NOR_ZERO)
                  (Expr.powerInt (strip arg) 2)))
              (Expr.const (-(3 / 2)) NE_NEITHER_ONE_NOR_ZERO))
            (strip arg))
        let argInit := initDeriv arg
        (.asin argInit.1 (some deriv) (some deriv2),
          deriv.size + deriv2.size + argInit.2)

/-- Every `Power_Int` / `Asin` node of the tree has both derivative caches
set. -/
def allInited : CNode → Bool
  | .var _ _ => true
  | .const _ _ => true
  | .powerInt a _ d d2 => d.isSome && (d2.isSome && allInited a)
  | .asin a d d2 => d.isSome && (d2.isSome && allInited a)

/-- A freshly constructed tree: no derivative cache set anywhere (both
constructors leave `derivative` and `derivative2` null). -/
def freshC : CNode → Bool
  | .var _ _ => true
  | .const _ _ => true
  | .powerInt a _ d d2 => d.isNone && (d2.isNone && freshC a)
  | .asin a d d2 => d.isNone && (d2.isNone && freshC a)

/-- `differentiate(index)`.  `Power_Int::differentiate` (source lines
136-143): when `exponent == 0` it returns `DoubleConstant(0.0, NE_ZERO)`
without touching the argument; otherwise it differentiates the argument and
returns `myProd(derivative, dargument)`, where `derivative` is the cached
first-derivative expression (dereferencing a still-null cache would be
undefined behaviour, modelled as `none`).  The leaf cases and the
`Asin` case follow the same chain-rule shape and are modelled from the
spec (`UnaryOperator::differentiate` and the leaf classes are not among the
given sources): a variable differentiates to 1 on its own global index and
0 otherwise, a constant to 0. -/
def diffC : CNode → Nat → Option Expr
  | .var _ gi, index =>
      some (if gi = index then Expr.const 1 NE_ONE else Expr.const 0 NE_ZERO)
  | .const _ _, _ => some (Expr.const 0 NE_ZERO)
  | .powerInt arg e d _, index =>
      if e = 0 then some (Expr.const 0 NE_ZERO)
      else
        match d with
        | none => none
        | some dv => (diffC arg index).map (fun da => myProd dv da)
  | .asin arg d _, index =>
      match d with
      | none => none
      | some dv => (diffC arg index).map (fun da => myProd dv da)

/-- The single-`VariableType` overload `isDependingOn(var)`.
`Power_Int::isDependingOn` (source lines 226-229) simply delegates to the
argument, with no `exponent == 0` special case.  A variable leaf answers
whether its own variable type equals the queried one, a constant answers
false, and the other node kinds delegate to (the disjunction of) their
children (modelled from the spec, these classes not being among the given
sources). -/
def isDependingOnVT : Expr → Nat → BooleanType
  | .var vt _, v => if vt = v then BT_TRUE else BT_FALSE
  | .const _ _, _ => BT_FALSE
  | .powerInt a _, v => isDependingOnVT a v
  | .asin a, v => isDependingOnVT a v
  | .prod a b, v =>
      if isDependingOnVT a v = BT_TRUE then BT_TRUE else isDependingOnVT b v
  | .add a b, v =>
      if isDependingOnVT a v = BT_TRUE then BT_TRUE else isDependingOnVT b v
  | .power a b, v =>
      if isDependingOnVT a v = BT_TRUE then BT_TRUE else isDependingOnVT b v

/-- The `(dim, varType, component, implicit_dep)` overload of
`isDependingOn`, with the queried directions modelled as the list of
(variable type, component) pairs.  `Power_Int::isDependingOn` (source lines
232-242) returns `BT_FALSE` immediately when `exponent == 0` and otherwise
delegates to the argument.  The leaf and remaining cases are modelled from
the spec: a variable leaf answers whether its (type, component) pair is
among the queried directions, a constant answers false, the rest delegate.
-/
def isDependingOnDim : Expr → List (Nat × Nat) → BooleanType
  | .var vt gi, q => if (vt, gi) ∈ q then BT_TRUE else BT_FALSE
  | .const _ _, _ => BT_FALSE
  | .powerInt a e, q => if e = 0 then BT_FALSE else isDependingOnDim a q
  | .asin a, q => isDependingOnDim a q
  | .prod a b, q =>
      if isDependingOnDim a q = BT_TRUE then BT_TRUE else isDependingOnDim b q
  | .add a b, q =>
      if isDependingOnDim a q = BT_TRUE then BT_TRUE else isDependingOnDim b q
  | .power a b, q =>
      if isDependingOnDim a q = BT_TRUE then BT_TRUE else isDependingOnDim b q

namespace Power_Int

/-- `Power_Int::print` (source lines 426-460), modelled as a pure function
of the exponent, the argument's printed string and whether the argument is
a bare variable (`argument->isVariable(...)`); the C++ method is `const`,
so printing cannot change node state or evaluation semantics.  Output:
`(argument)` when the exponent is 1; `((argument)*(argument))` when the
exponent is 2 and the argument is a bare variable; otherwise
`(pow(argument,exponent))`. -/
def print (expo : Int) (argStr : String) (argIsVariable : Bool) : String :=
  if expo = 1 then "(" ++ argStr ++ ")"
  else if expo = 2 ∧ argIsVariable = true then
    "((" ++ argStr ++ ")*(" ++ argStr ++ "))"
  else "(pow(" ++ argStr ++ "," ++ toString expo ++ "))"

end Power_Int

/-- Claim C3: substituting variable `i` by the constant `c` and then
evaluating agrees with evaluating the original expression with entry `i` of
the input vector replaced by `c`; substitution preserves the node kind and,
for `Power_Int`, the integer exponent. -/
theorem substitute_evaluate_roundtrip
    (asinF : ℚ → ℚ) (rpowF : ℚ → ℚ → ℚ) (e : Expr) (i : Nat) (c : ℚ)
    (t : NeutralElement) (x : Nat → ℚ) (a : Expr) (n : Int) :
    Expr.eval asinF rpowF x (Expr.substitute i (Expr.const c t) e)
      = Expr.eval asinF rpowF (updateVec x i c) e
    ∧ Expr.substitute i (Expr.const c t) (Expr.powerInt a n)
      = Expr.powerInt (Expr.substitute i (Expr.const c t) a) n
    ∧ Expr.substitute i (Expr.const c t) (Expr.asin a)
      = Expr.asin (Expr.substitute i (Expr.const c t) a) := by
  refine ⟨?_, rfl, rfl⟩
  induction e with
  | var vt gi =>
      by_cases h : gi = i <;>
        simp [Expr.substitute, Expr.eval, updateVec, h]
  | const v tg => simp [Expr.substitute, Expr.eval]
  | powerInt a n ih => simp [Expr.substitute, Expr.eval, ih]
  | asin a ih => simp [Expr.substitute, Expr.eval, ih]
  | prod a b iha ihb => simp [Expr.substitute, Expr.eval, iha, ihb]
  | add a b iha ihb => simp [Expr.substitute, Expr.eval, iha, ihb]
  | power a b iha ihb => simp [Expr.substitute, Expr.eval, iha, ihb]

/-- Claim C10: `Power_Int::isOneOrZero` answers `NE_NEITHER_ONE_NOR_ZERO` for
every `Power_Int` node, whatever the exponent (including 0 and 1), so the
neutral-element folding of the factory helper `myProd` never folds a
`Power_Int` operand away as a zero or a one: the result is determined by the
other operand's classification alone, and when that operand is also neither
zero nor one a genuine `Product` node is built. -/
theorem powerInt_isOneOrZero_neither (a : Expr) (n : Int) (b : Expr) :
    Expr.isOneOrZero (Expr.powerInt a n) = NE_NEITHER_ONE_NOR_ZERO
    ∧ myProd (Expr.powerInt a n) b
      = (match b.isOneOrZero with
          | NE_ZERO => Expr.const 0 NE_ZERO
          | NE_ONE => Expr.powerInt a n
          | NE_NEITHER_ONE_NOR_ZERO => Expr.prod (Expr.powerInt a n) b)
    ∧ myProd b (Expr.powerInt a n)
      = (match b.isOneOrZero with
          | NE_ZERO => Expr.const 0 NE_ZERO
          | NE_ONE => Expr.powerInt a n
          | NE_NEITHER_ONE_NOR_ZERO => Expr.prod b (Expr.powerInt a n)) := by
  have h1 : (Expr.powerInt a n).isOneOrZero = NE_NEITHER_ONE_NOR_ZERO := rfl
  refine ⟨rfl, ?_, ?_⟩ <;>
    cases h : b.isOneOrZero <;>
      simp only [myProd, h1, h]

/-- Claim C1 (code bug): at the failing input — exponent `-1` with buffered
argument value `0`, where the underlying math `pow(0, -1)` is undefined —
`Power_Int::evaluate` still returns `SUCCESSFUL_RETURN`, and it does so for
every result code `c` returned by the child (the source discards the child's
return code), so a child's `RET_NAN` is not propagated either.  This
contradicts the claimed `RET_NAN`-on-domain-error behaviour and the
declaration's own documentation (`powerint.hpp` lines 77-82). -/
theorem powerInt_evaluate_ignores_domain_errors :
    ∀ c : ReturnValue,
      (Power_Int.evaluate (-1) 0 c ⟨1, [0], [0]⟩ 0).map (fun r => r.2.2)
        = some SUCCESSFUL_RETURN
      ∧ SUCCESSFUL_RETURN ≠ RET_NAN := by
  intro c
  exact ⟨rfl, by decide⟩

/-- Claim C7: calling `Power_Int::evaluate` with a slot `number` at or beyond
the current `bufferSize` succeeds, grows `bufferSize` to
`bufferSize + number` (hence past `number`), keeps the buffers well-formed,
and leaves every previously stored slot of both `argument_result` and
`dargument_result` unchanged.  In particular with `bufferSize = 1` and slot
`5` the call succeeds, leaves `bufferSize = 6 ≥ 6`, and the slot-0 entries
survive. -/
theorem powerInt_evaluate_buffer_growth
    (expo : Int) (childVal : ℚ) (c : ReturnValue) (s : PIBuffers) (number : Nat)
    (hwf : s.wf) (hn : s.bufferSize ≤ number) :
    ∃ s' res, Power_Int.evaluate expo childVal c s number
        = some (s', res, SUCCESSFUL_RETURN)
      ∧ s'.bufferSize = s.bufferSize + number
      ∧ number < s'.bufferSize
      ∧ s'.wf
      ∧ (∀ k, k < s.bufferSize →
          s'.argument_result[k]? = s.argument_result[k]?
          ∧ s'.dargument_result[k]? = s.dargument_result[k]?) := by
  obtain ⟨h1, h2, h3⟩ := hwf
  have hg : growBuffers s number =
      { bufferSize := s.bufferSize + number,
        argument_result := s.argument_result ++ List.replicate number 0,
        dargument_result := s.dargument_result ++ List.replicate number 0 } := by
    unfold growBuffers
    rw [if_pos hn, h1, h2]
    simp
  have hlen : (s.argument_result ++ List.replicate number 0).length
      = s.bufferSize + number := by
    simp [h1]
  have hlt : number < s.bufferSize + number := by omega
  refine ⟨⟨s.bufferSize + number,
          (s.argument_result ++ List.replicate number 0).set number childVal,
          s.dargument_result ++ List.replicate number 0⟩,
        ((s.argument_result ++ List.replicate number 0).set number
            childVal).getD number 0 ^ expo,
        ?_, rfl, hlt, ⟨?_, ?_, by simp; omega⟩, ?_⟩
  · unfold Power_Int.evaluate
    rw [hg]
    simp only
    rw [if_pos (by rw [hlen]; exact hlt)]
  · simp [hlen]
  · simp [h2]
  · intro k hk
    constructor
    · rw [List.getElem?_set_ne (by omega)]
      exact List.getElem?_append_left (by omega)
    · exact List.getElem?_append_left (by omega)

/-- Witness for claim C7: the scenario of the spec — a node with
`bufferSize = 1` holding stored slot-0 values, evaluated at slot 5. -/
theorem powerInt_evaluate_buffer_growth_witness :
    (PIBuffers.mk 1 [7] [9]).wf ∧ (PIBuffers.mk 1 [7] [9]).bufferSize ≤ 5
    ∧ (∃ s' res, Power_Int.evaluate 2 3 SUCCESSFUL_RETURN ⟨1, [7], [9]⟩ 5
          = some (s', res, SUCCESSFUL_RETURN)
        ∧ s'.bufferSize = (1 : Nat) + 5
        ∧ 5 < s'.bufferSize
        ∧ s'.wf
        ∧ (∀ k, k < (PIBuffers.mk 1 [7] [9]).bufferSize →
            s'.argument_result[k]? = [(7 : ℚ)][k]?
            ∧ s'.dargument_result[k]? = [(9 : ℚ)][k]?)) :=
  ⟨by decide, by decide,
    powerInt_evaluate_buffer_growth 2 3 SUCCESSFUL_RETURN ⟨1, [7], [9]⟩ 5
      (by decide) (by decide)⟩

/-- Claim C9: under the precondition `number < bufferSize` (with well-formed
buffers), the two-argument numeric `AD_forward`, `AD_backward`,
`AD_forward2` and `AD_backward2` of `Power_Int` perform only in-bounds
buffer accesses (the model returns `some`), and none of them changes
`bufferSize`: `AD_forward` writes only `dargument_result[number]`, the other
three leave the whole buffer state untouched. -/
theorem powerInt_numericAD_inbounds_preserves_bufferSize
    (expo : Int) (childDf childD childDD : ℚ) (c1 c2 : ReturnValue)
    (s : PIBuffers) (number : Nat) (seed seed1 seed2 : ℚ)
    (hwf : s.wf) (hn : number < s.bufferSize) :
    (∃ s' df, Power_Int.AD_forward_num expo childDf s number = some (s', df)
       ∧ s'.bufferSize = s.bufferSize ∧ s'.wf)
    ∧ (∃ r, Power_Int.AD_backward_num expo c1 s number seed = some r
       ∧ r.1 = s)
    ∧ (∃ r, Power_Int.AD_forward2_num expo childD childDD s number = some r
       ∧ r.1 = s)
    ∧ (∃ r, Power_Int.AD_backward2_num expo c2 s number seed1 seed2 = some r
       ∧ r.1 = s) := by
  obtain ⟨h1, h2, h3⟩ := hwf
  have ha : number < s.argument_result.length := by omega
  have hd : number < s.dargument_result.length := by omega
  refine ⟨⟨⟨s.bufferSize, s.argument_result,
            s.dargument_result.set number childDf⟩,
          (expo : ℚ) * (s.argument_result.getD number 0) ^ (expo - 1)
            * ((s.dargument_result.set number childDf).getD number 0),
          ?_, rfl, ?_⟩,
        ⟨⟨s, (expo : ℚ) * (s.argument_result.getD number 0) ^ (expo - 1) * seed,
            c1⟩, ?_, rfl⟩,
        ⟨⟨s, ((expo : ℚ) * (s.argument_result.getD number 0) ^ (expo - 1)) * childD,
            ((expo : ℚ) * (s.argument_result.getD number 0) ^ (expo - 1)) * childDD
              + (expo : ℚ) * ((expo : ℚ) - 1) * (s.dargument_result.getD number 0)
                * childD * (s.argument_result.getD number 0) ^ (expo - 2)⟩,
          ?_, rfl⟩,
        ⟨⟨s, seed1 * ((expo : ℚ) * (s.argument_result.getD number 0) ^ (expo - 1)),
            seed2 * ((expo : ℚ) * (s.argument_result.getD number 0) ^ (expo - 1))
              + seed1 * (expo : ℚ) * ((expo : ℚ) - 1)
                * (s.argument_result.getD number 0) ^ (expo - 2)
                * (s.dargument_result.getD number 0),
            c2⟩, ?_, rfl⟩⟩
  · unfold Power_Int.AD_forward_num
    rw [if_pos hd]
    simp only
    rw [if_pos ha]
  · exact ⟨h1, by simp [h2], h3⟩
  · unfold Power_Int.AD_backward_num
    rw [if_pos ha]
  · unfold Power_Int.AD_forward2_num
    rw [if_pos ha]
    simp only
    rw [if_pos hd]
  · unfold Power_Int.AD_backward2_num
    rw [if_pos ha]
    simp only
    rw [if_pos hd]

/-- Witness for claim C9: a node with `bufferSize = 2` and populated buffers,
queried at slot 1. -/
theorem powerInt_numericAD_inbounds_witness :
    (PIBuffers.mk 2 [1, 2] [3, 4]).wf ∧ 1 < (PIBuffers.mk 2 [1, 2] [3, 4]).bufferSize
    ∧ ((∃ s' df, Power_Int.AD_forward_num 3 5 ⟨2, [1, 2], [3, 4]⟩ 1 = some (s', df)
         ∧ s'.bufferSize = (PIBuffers.mk 2 [1, 2] [3, 4]).bufferSize ∧ s'.wf)
      ∧ (∃ r, Power_Int.AD_backward_num 3 RET_NAN ⟨2, [1, 2], [3, 4]⟩ 1 1 = some r
         ∧ r.1 = ⟨2, [1, 2], [3, 4]⟩)
      ∧ (∃ r, Power_Int.AD_forward2_num 3 5 7 ⟨2, [1, 2], [3, 4]⟩ 1 = some r
         ∧ r.1 = ⟨2, [1, 2], [3, 4]⟩)
      ∧ (∃ r, Power_Int.AD_backward2_num 3 RET_NAN ⟨2, [1, 2], [3, 4]⟩ 1 1 1 = some r
         ∧ r.1 = ⟨2, [1, 2], [3, 4]⟩)) :=
  ⟨by decide, by decide,
    powerInt_numericAD_inbounds_preserves_bufferSize 3 5 5 7 RET_NAN RET_NAN
      ⟨2, [1, 2], [3, 4]⟩ 1 1 1 1 (by decide) (by decide)⟩

/-- The ceiling-based test agrees with exact integer parity of the exponent.
-/
theorem evenExponentTest_iff (n : Int) : evenExponentTest n = true ↔ n % 2 = 0 := by
  unfold evenExponentTest
  rw [decide_eq_true_eq]
  rcases Int.even_or_odd n with ⟨k, hk⟩ | ⟨k, hk⟩
  · subst hk
    have h2 : ((k + k : ℤ) : ℚ) / 2 = ((k : ℤ) : ℚ) := by push_cast; ring
    rw [h2]
    have hc : ((k : ℤ) : ℚ) - EPS = -EPS + ((k : ℤ) : ℚ) := by ring
    rw [hc, Int.ceil_add_int]
    have h0 : ⌈(-EPS : ℚ)⌉ = 0 := by
      rw [Int.ceil_eq_zero_iff]
      constructor <;> norm_num [EPS]
    rw [h0]
    refine iff_of_true ?_ (by omega)
    push_cast
    norm_num [EPS]
  · subst hk
    have h2 : ((2 * k + 1 : ℤ) : ℚ) / 2 = ((k : ℤ) : ℚ) + 1 / 2 := by
      push_cast; ring
    rw [h2]
    have hc : ((k : ℤ) : ℚ) + 1 / 2 - EPS = (1 / 2 - EPS) + ((k : ℤ) : ℚ) := by
      ring
    rw [hc, Int.ceil_add_int]
    have h0 : ⌈(1 / 2 - EPS : ℚ)⌉ = 1 := by
      rw [Int.ceil_eq_iff]
      constructor <;> norm_num [EPS]
    rw [h0]
    refine iff_of_false ?_ (by omega)
    have hv : ((1 + k : ℤ) : ℚ) - (((k : ℤ) : ℚ) + 1 / 2) = 1 / 2 := by
      push_cast; ring
    rw [hv]
    rw [abs_of_nonneg (by norm_num)]
    norm_num [EPS]

/-- Claim C4: on a node whose monotonicity cache is still `MT_UNKNOWN`,
`getMonotonicity` follows exactly the spec's monotonicity table, and the
floating-point ceiling parity test agrees with exact integer parity of the
exponent. -/
theorem powerInt_getMonotonicity_table (n : Int) (m : MonotonicityType)
    (cv : CurvatureType) :
    (evenExponentTest n = true ↔ n % 2 = 0)
    ∧ (Power_Int.getMonotonicity ⟨cv, MT_UNKNOWN⟩ m n).1 = specMonotonicity m n := by
  refine ⟨evenExponentTest_iff n, ?_⟩
  unfold Power_Int.getMonotonicity specMonotonicity
  simp only
  rw [if_neg (by simp)]
  by_cases hm : m = MT_CONSTANT
  · simp [hm]
  · rw [if_neg hm, if_neg hm]
    by_cases he : n % 2 = 0
    · have het : evenExponentTest n = true := (evenExponentTest_iff n).mpr he
      simp [het, he]
    · have het : evenExponentTest n = false := by
        cases h : evenExponentTest n
        · rfl
        · exact absurd ((evenExponentTest_iff n).mp h) he
      simp [het, he]

/-- Claim C5: on a node whose curvature cache is still `CT_UNKNOWN`,
`getCurvature` follows exactly the spec's curvature table; after
`setCurvature` (resp. `setMonotonicity`) with a value other than
`CT_UNKNOWN` (resp. `MT_UNKNOWN`) the corresponding getter returns the
explicitly set value, overriding the automatic derivation; and two
successive calls to either getter return the same value on the same
(unchanged) state. -/
theorem powerInt_getCurvature_table_and_overrides :
    (∀ (mono : MonotonicityType) (cc : CurvatureType) (n : Int),
      (Power_Int.getCurvature ⟨CT_UNKNOWN, mono⟩ cc n).1 = specCurvature cc n)
    ∧ (∀ (s : PIClassification) (c cc : CurvatureType) (n : Int),
        c ≠ CT_UNKNOWN →
        (Power_Int.getCurvature (Power_Int.setCurvature s c).2 cc n).1 = c)
    ∧ (∀ (s : PIClassification) (m am : MonotonicityType) (n : Int),
        m ≠ MT_UNKNOWN →
        (Power_Int.getMonotonicity (Power_Int.setMonotonicity s m).2 am n).1 = m)
    ∧ (∀ (s : PIClassification) (cc : CurvatureType) (n : Int),
        Power_Int.getCurvature (Power_Int.getCurvature s cc n).2 cc n
          = Power_Int.getCurvature s cc n)
    ∧ (∀ (s : PIClassification) (am : MonotonicityType) (n : Int),
        Power_Int.getMonotonicity (Power_Int.getMonotonicity s am n).2 am n
          = Power_Int.getMonotonicity s am n) := by
  refine ⟨?_, ?_, ?_, fun s cc n => rfl, fun s am n => rfl⟩
  · intro mono cc n
    unfold Power_Int.getCurvature specCurvature
    simp only
    rw [if_neg (by simp)]
    by_cases hc : cc = CT_CONSTANT
    · simp [hc]
    · rw [if_neg hc, if_neg hc]
      by_cases he : n % 2 = 0
      · have het : evenExponentTest n = true := (evenExponentTest_iff n).mpr he
        simp [het, he]
      · have het : evenExponentTest n = false := by
          cases h : evenExponentTest n
          · rfl
          · exact absurd ((evenExponentTest_iff n).mp h) he
        simp [het, he]
  · intro s c cc n hc
    unfold Power_Int.getCurvature Power_Int.setCurvature
    simp [hc]
  · intro s m am n hm
    unfold Power_Int.getMonotonicity Power_Int.setMonotonicity
    simp [hm]

/-- Witness for claim C5: on a fresh node, setting curvature `CT_CONVEX` and
monotonicity `MT_NONDECREASING` makes the getters return exactly those
values (here with an affine argument and exponent 3, where the automatic
derivation would answer differently). -/
theorem powerInt_set_get_override_witness :
    CT_CONVEX ≠ CT_UNKNOWN ∧ MT_NONDECREASING ≠ MT_UNKNOWN
    ∧ (Power_Int.getCurvature
        (Power_Int.setCurvature ⟨CT_UNKNOWN, MT_UNKNOWN⟩ CT_CONVEX).2
        CT_AFFINE 3).1 = CT_CONVEX
    ∧ (Power_Int.getMonotonicity
        (Power_Int.setMonotonicity ⟨CT_UNKNOWN, MT_UNKNOWN⟩ MT_NONDECREASING).2
        MT_NONINCREASING 3).1 = MT_NONDECREASING :=
  ⟨by decide, by decide,
    powerInt_getCurvature_table_and_overrides.2.1
      ⟨CT_UNKNOWN, MT_UNKNOWN⟩ CT_CONVEX CT_AFFINE 3 (by decide),
    powerInt_getCurvature_table_and_overrides.2.2.1
      ⟨CT_UNKNOWN, MT_UNKNOWN⟩ MT_NONDECREASING MT_NONINCREASING 3 (by decide)⟩

/-- Claim C6: on a freshly constructed tree, a first `initDerivative` call
recursively initialises the derivative caches of the node and of its whole
argument subtree, and a second call is a no-op: it returns the tree
unchanged (both cache fields pointer-identical to the values set by the
first call) and allocates zero new nodes, without re-traversing the
argument. -/
theorem initDerivative_idempotent (node : CNode) (hfresh : freshC node = true) :
    allInited (initDeriv node).1 = true
    ∧ initDeriv (initDeriv node).1 = ((initDeriv node).1, 0) := by
  induction node with
  | var vt gi => exact ⟨rfl, rfl⟩
  | const v t => exact ⟨rfl, rfl⟩
  | powerInt arg e d d2 ih =>
      simp only [freshC, Bool.and_eq_true, Option.isNone_iff_eq_none] at hfresh
      obtain ⟨hd, hd2, harg⟩ := hfresh
      subst hd
      subst hd2
      obtain ⟨ih1, _⟩ := ih harg
      constructor
      · simp [initDeriv, allInited, ih1]
      · simp [initDeriv]
  | asin arg d d2 ih =>
      simp only [freshC, Bool.and_eq_true, Option.isNone_iff_eq_none] at hfresh
      obtain ⟨hd, hd2, harg⟩ := hfresh
      subst hd
      subst hd2
      obtain ⟨ih1, _⟩ := ih harg
      constructor
      · simp [initDeriv, allInited, ih1]
      · simp [initDeriv]

/-- Witness for claim C6: a fresh `Asin` node over a `Power_Int` node over a
variable. -/
theorem initDerivative_idempotent_witness :
    freshC (CNode.asin (CNode.powerInt (CNode.var 0 0) 3 none none) none none)
      = true
    ∧ (allInited (initDeriv (CNode.asin
          (CNode.powerInt (CNode.var 0 0) 3 none none) none none)).1 = true
      ∧ initDeriv (initDeriv (CNode.asin
            (CNode.powerInt (CNode.var 0 0) 3 none none) none none)).1
          = ((initDeriv (CNode.asin
              (CNode.powerInt (CNode.var 0 0) 3 none none) none none)).1, 0)) :=
  ⟨rfl, initDerivative_idempotent
    (CNode.asin (CNode.powerInt (CNode.var 0 0) 3 none none) none none) rfl⟩

/-- Counterexample to claim C2: the single-`VariableType` overload of
`isDependingOn` on a `Power_Int` node with exponent 0 does NOT report false
when the argument depends on the queried variable — the source delegates to
the argument unconditionally, with no `exponent == 0` check (contrast
source lines 226-229 with lines 237-239). -/
theorem powerInt_isDependingOn_vt_counterexample :
    isDependingOnVT (Expr.powerInt (Expr.var 0 0) 0) 0 ≠ BT_FALSE := by
  decide

/-- Claim C2 as amended: for a `Power_Int` node with exponent 0, `evaluate`
returns the value 1 whatever the argument's value, `differentiate` returns
the constant-zero node (`DoubleConstant(0.0, NE_ZERO)`) for every index,
and the `(dim, varType, component, implicit_dep)` overload of
`isDependingOn` reports false for every query; the single-`VariableType`
overload, however, delegates to the argument unconditionally (for every
exponent), so it reports the argument's dependency even when the exponent
is 0. -/
theorem powerInt_exponent_zero_behaviour
    (childVal : ℚ) (c : ReturnValue) (s : PIBuffers) (number : Nat)
    (arg : CNode) (d d2 : Option Expr) (index : Nat)
    (a b : Expr) (q : List (Nat × Nat)) (e : Int) (v : Nat) :
    (Power_Int.evaluate 0 childVal c s number).elim True (fun r => r.2.1 = 1)
    ∧ diffC (CNode.powerInt arg 0 d d2) index = some (Expr.const 0 NE_ZERO)
    ∧ isDependingOnDim (Expr.powerInt a 0) q = BT_FALSE
    ∧ isDependingOnVT (Expr.powerInt b e) v = isDependingOnVT b v := by
  refine ⟨?_, rfl, rfl, rfl⟩
  unfold Power_Int.evaluate
  dsimp only
  split
  · exact zpow_zero _
  · trivial

/-- Claim C8: `print` emits exactly `(argument)` for exponent 1,
exactly `((argument)*(argument))` for exponent 2 with a bare-variable
argument, and otherwise the `pow(argument,n)` form with the integer
exponent (wrapped, like every printed node, in one outer pair of
parentheses); being a pure function of its inputs (the C++ method is
`const`), printing changes no node state. -/
theorem powerInt_print_forms (argStr : String) (b : Bool) (n : Int)
    (h1 : n ≠ 1) (h2 : ¬(n = 2 ∧ b = true)) :
    Power_Int.print 1 argStr b = "(" ++ argStr ++ ")"
    ∧ Power_Int.print 2 argStr true = "((" ++ argStr ++ ")*(" ++ argStr ++ "))"
    ∧ Power_Int.print n argStr b
        = "(pow(" ++ argStr ++ "," ++ toString n ++ "))" := by
  refine ⟨rfl, rfl, ?_⟩
  unfold Power_Int.print
  rw [if_neg h1, if_neg h2]

/-- Witness for claim C8: the spec's example — exponent 2 over the bare
variable `x` gives the doubled self-product form, exponent 3 gives
`(pow(x,3))`. -/
theorem powerInt_print_forms_witness :
    (3 : Int) ≠ 1 ∧ ¬((3 : Int) = 2 ∧ true = true)
    ∧ (Power_Int.print 1 "x" true = "(" ++ "x" ++ ")"
      ∧ Power_Int.print 2 "x" true = "((" ++ "x" ++ ")*(" ++ "x" ++ "))"
      ∧ Power_Int.print 3 "x" true
          = "(pow(" ++ "x" ++ "," ++ toString (3 : Int) ++ "))") :=
  ⟨by decide, by decide, powerInt_print_forms "x" true 3 (by decide) (by decide)⟩
